import Mathlib

/-!
Shallow embedding of `src/lab_1-2/ctcp.c` (a cTCP lab implementation).

The embedding follows the C source statement by statement.  The struct
declarations `ctcp_segment_t`, `ctcp_config_t` and the constants from
`ctcp.h` / `ctcp_sys.h` are not part of the sources, so those types are
modelled from the specification (its wire-format section and data-model
section); every such definition is marked in its doc comment.

Machine arithmetic: the C code stores counters in `int` (modelled as `Int`),
`bytes_inflight` and flags in `short`, and converts with `htonl`, `htons`,
`ntohs`.  Byte-order conversions are modelled explicitly as byte swaps on a
little-endian host (the platform of the lab), with truncation to the
relevant width.
-/

/-- `htons`: 16-bit byte swap (little-endian host to network order).
The argument is first truncated to 16 bits, as the C parameter type does. -/
def hton16 (x : Nat) : Nat :=
  (x % 65536 % 256) * 256 + x % 65536 / 256

/-- `ntohs` is the same byte swap as `htons`. -/
def ntoh16 (x : Nat) : Nat := hton16 x

/-- `htonl`: 32-bit byte swap (little-endian host to network order).
The argument is first truncated to 32 bits, as the C parameter type does. -/
def hton32 (x : Nat) : Nat :=
  (x % 4294967296 % 256) * 16777216 + (x % 4294967296 / 256 % 256) * 65536 +
    (x % 4294967296 / 65536 % 256) * 256 + x % 4294967296 / 16777216

/-- `ntohl` is the same byte swap as `htonl`. -/
def ntoh32 (x : Nat) : Nat := hton32 x

/-- C conversion of a (possibly signed) integer to `uint32_t`. -/
def toU32 (x : Int) : Nat := (x % 4294967296).toNat

/-- C conversion of a (possibly signed) integer to `uint16_t`. -/
def toU16 (x : Int) : Nat := (x % 65536).toNat

/-- C conversion of an `int` to `short` (wraps into the signed 16-bit range). -/
def toI16 (x : Int) : Int :=
  if x % 65536 < 32768 then x % 65536 else x % 65536 - 65536

/-- `#define INITIAL_SEQ_NO 1u` (ctcp.c line 22). -/
def INITIAL_SEQ_NO : Int := 1

/-- Modelled from the spec: flags bit 0 is ACK (the constant itself lives in
the header `ctcp_sys.h`, which is not among the sources). -/
def ACK : Nat := 1

/-- Modelled from the spec: flags bit 1 is SYN. -/
def SYN : Nat := 2

/-- Modelled from the spec: flags bit 2 is FIN. -/
def FIN : Nat := 4

/-- Modelled from the spec: the fixed header size used as
`sizeof(ctcp_segment_t)` in the C code.  The spec wire format gives
seqno 32-bit, ackno 32-bit, len 16-bit, flags 32-bit, window 16-bit,
checksum 16-bit, hence 18 bytes of header before the payload. -/
def HDR_SIZE : Nat := 18

/-- Modelled from the spec: `ctcp_config_t` (declared in `ctcp.h`, not among
the sources).  The spec configuration surface lists `recv_window`,
`send_window` and the retransmission timeout; all are C `int`s. -/
structure Config where
  recv_window : Int
  send_window : Int
  rt_timeout : Int
  deriving DecidableEq, Repr

/-- Modelled from the spec: `ctcp_segment_t` (declared in `ctcp_sys.h`, not
among the sources).  Fields hold the stored values, which the code keeps in
network byte order; `data` is the payload that follows the header. -/
structure Segment where
  seqno : Nat
  ackno : Nat
  len : Nat
  flags : Nat
  window : Nat
  cksum : Nat
  data : List Nat
  deriving DecidableEq, Repr

/-- `timestamped_segment_t` (ctcp.c lines 75-78): a segment together with the
time when it was sent.  `calloc` initialises `time_when_sent` to 0. -/
structure TimestampedSegment where
  time_when_sent : Int
  segment : Segment
  deriving DecidableEq, Repr

/-- `struct ctcp_state` (ctcp.c lines 33-68).  The intrusive `next`/`prev`
registry pointers are modelled by the registry list itself; mutexes and the
pthread handle have no data content.  `is_output_thread_running` is a C
`short` holding 0 or 1; the three linked lists keep their head at the front,
matching `ll_add_front`. -/
structure CtcpState where
  conn : Nat
  config : Config
  next_seq_no : Int
  last_ack_sent : Int
  last_ack_received : Int
  is_output_thread_running : Int
  outbound_segments_list : List TimestampedSegment
  inflight_segments_list : List TimestampedSegment
  received_segments_list : List TimestampedSegment
  bytes_inflight : Int
  deriving DecidableEq, Repr

/-- `array_copy(to, from, n)` (ctcp.c lines 160-165) fills a fresh buffer of
`n` bytes with the first `n` bytes of the source. -/
def array_copy (source : List Nat) (n : Nat) : List Nat := source.take n

/-- `create_new_data_segment` (ctcp.c lines 169-198).  `ck` stands for the
external `cksum(ptr, nbytes)` utility from `ctcp_utils.h` (out of scope per
the spec); it is applied to the segment as it is at the call, whose checksum
field is zero, with byte count `ntohs(len)`.  Returns the new segment and
the updated connection state (`next_seq_no` advanced by `bytes_read`). -/
def create_new_data_segment (ck : Segment → Nat → Nat) (state : CtcpState)
    (bytes_read : Nat) (buffer : List Nat) : Segment × CtcpState :=
  let data := array_copy buffer bytes_read
  let seg0 : Segment :=
    { seqno := hton32 (toU32 state.next_seq_no)
      ackno := hton32 (toU32 state.last_ack_sent)
      len := hton16 (HDR_SIZE + bytes_read)
      flags := Nat.lor 0 (hton32 ACK)
      window := hton16 (toU16 state.config.recv_window)
      cksum := 0
      data := data }
  let seg := { seg0 with cksum := ck { seg0 with cksum := 0 } (ntoh16 seg0.len) }
  (seg, { state with next_seq_no := state.next_seq_no + (bytes_read : Int) })

/-- `create_new_fin_segment` (ctcp.c lines 202-229).  Zero-length payload,
ACK and FIN flags set, `len` is the bare header size.  The comment in the
source says `next_seq_no` is deliberately not updated, and indeed the
function never writes the state, so it returns only the segment. -/
def create_new_fin_segment (ck : Segment → Nat → Nat) (state : CtcpState) :
    Segment :=
  let seg0 : Segment :=
    { seqno := hton32 (toU32 state.next_seq_no)
      ackno := hton32 (toU32 state.last_ack_sent)
      len := hton16 HDR_SIZE
      flags := Nat.lor (Nat.lor 0 (hton32 ACK)) (hton32 FIN)
      window := hton16 (toU16 state.config.recv_window)
      cksum := 0
      data := [] }
  { seg0 with cksum := ck { seg0 with cksum := 0 } (ntoh16 seg0.len) }

/-- Marker for reaching the `conn_send` statement at ctcp.c line 267 (the
statement in the source is incomplete: `conn_send` with no argument list, so
nothing is actually transmitted). -/
inductive SendEvent
  | connSendReached
  deriving DecidableEq, Repr

/-- Outcome of one run of the sender task body. -/
inductive SendOutcome
  | ok (st : CtcpState) (evs : List SendEvent)
  | threadExit (st : CtcpState)
  | nullDeref (st : CtcpState)
  deriving DecidableEq, Repr

/-- The connection state carried by a `SendOutcome`. -/
def SendOutcome.state : SendOutcome → CtcpState
  | .ok st _ => st
  | .threadExit st => st
  | .nullDeref st => st

/-- `send_outbound_tail_segments` (ctcp.c lines 234-269), the body of the
forked sender thread.  Faithful to the source:
  * `send_window_size` is a C `short` local, so the config value is wrapped;
  * if the window is open and the outbound list is non-empty, the tail node
    is read and removed (the removed timestamped segment is then never used
    again: it is not timestamped, not added to the inflight list — the
    critical section at lines 257-258 is empty — and `bytes_inflight` is
    never touched);
  * if the window is open and the list is empty, the thread exits;
  * the guard at lines 264-265 then dereferences the tail of the current
    outbound list (a NULL dereference when that list is empty) and compares
    the host-order `last_ack_received`, converted to unsigned, against the
    stored network-order `seqno`.  Its then-branch is the incomplete
    `conn_send` statement. -/
def send_outbound_tail_segments (st : CtcpState) : SendOutcome :=
  if st.bytes_inflight < toI16 st.config.send_window then
    match st.outbound_segments_list with
    | [] => SendOutcome.threadExit st
    | _ :: _ =>
      match st.outbound_segments_list.dropLast.getLast? with
      | none =>
        SendOutcome.nullDeref
          { st with outbound_segments_list := st.outbound_segments_list.dropLast }
      | some t =>
        if toU32 st.last_ack_received > t.segment.seqno then
          SendOutcome.ok
            { st with outbound_segments_list := st.outbound_segments_list.dropLast }
            [SendEvent.connSendReached]
        else
          SendOutcome.ok
            { st with outbound_segments_list := st.outbound_segments_list.dropLast }
            []
  else
    match st.outbound_segments_list.getLast? with
    | none => SendOutcome.nullDeref st
    | some t =>
      if toU32 st.last_ack_received > t.segment.seqno then
        SendOutcome.ok st [SendEvent.connSendReached]
      else
        SendOutcome.ok st []

/-- Observable side effect of `ctcp_read` itself: forking the sender thread
(`pthread_create` at ctcp.c line 320).  `ctcp_read` never calls `conn_send`
directly, so it produces no transmission event. -/
inductive REvent
  | threadStart
  deriving DecidableEq, Repr

/-- The `while` loop of `ctcp_read` (ctcp.c lines 295-333).  `chunks` is the
sequence of buffers successive successful `conn_input` calls fill (each call
returned the chunk length, which was `> 0`).  For each chunk a data segment
is built, wrapped in a zero-initialised timestamped segment, and added to the
front of the outbound list; on the first iteration with the running flag
clear, the sender thread is forked (modelled as always succeeding) and the
flag is set.  Returns the state, the final `need_to_fork_thread` flag and
the events.  One iteration of the loop body up to the thread fork is split
out as `read_loop_body`: build the data segment from the chunk just read,
wrap it in a zero-initialised timestamped segment, and add it to the front
of the outbound list. -/
def read_loop_body (ck : Segment → Nat → Nat) (st : CtcpState)
    (chunk : List Nat) : CtcpState :=
  { (create_new_data_segment ck st chunk.length chunk).2 with
    outbound_segments_list :=
      { time_when_sent := 0,
        segment := (create_new_data_segment ck st chunk.length chunk).1 } ::
        (create_new_data_segment ck st chunk.length chunk).2.outbound_segments_list }

def ctcp_read_loop (ck : Segment → Nat → Nat) :
    CtcpState → List (List Nat) → Bool → CtcpState × Bool × List REvent
  | st, [], need_fork => (st, need_fork, [])
  | st, chunk :: rest, need_fork =>
    if need_fork then
      if (read_loop_body ck st chunk).is_output_thread_running = 0 then
        (fun r => (r.1, r.2.1, REvent.threadStart :: r.2.2))
          (ctcp_read_loop ck
            { read_loop_body ck st chunk with is_output_thread_running := 1 }
            rest false)
      else
        ctcp_read_loop ck (read_loop_body ck st chunk) rest false
    else
      ctcp_read_loop ck (read_loop_body ck st chunk) rest false

/-- `ctcp_read` (ctcp.c lines 284-343).  After the input loop, if the final
`conn_input` returned -1 (`eof = true`), a FIN segment wrapped in a fresh
zero-initialised timestamped segment is added to the front of the outbound
list; that branch forks no thread and sends nothing. -/
def ctcp_read (ck : Segment → Nat → Nat) (st : CtcpState)
    (chunks : List (List Nat)) (eof : Bool) : CtcpState × List REvent :=
  let r := ctcp_read_loop ck st chunks true
  if eof then
    ({ r.1 with outbound_segments_list :=
        { time_when_sent := 0, segment := create_new_fin_segment ck r.1 } ::
          r.1.outbound_segments_list },
     r.2.2)
  else
    (r.1, r.2.2)

/-- `ctcp_receive` (ctcp.c lines 347-349): the body is an empty `FIXME`
stub, so an arriving segment changes nothing. -/
def ctcp_receive (st : CtcpState) (_segment : Segment) (_len : Nat) :
    CtcpState := st

/-- `ctcp_output` (ctcp.c lines 351-353): empty `FIXME` stub. -/
def ctcp_output (st : CtcpState) : CtcpState := st

/-- `ctcp_timer` (ctcp.c lines 355-357): empty `FIXME` stub; it touches no
registered connection. -/
def ctcp_timer (registry : List CtcpState) : List CtcpState := registry

/-- `ctcp_init` (ctcp.c lines 88-141).  A NULL connection handle yields NULL
and leaves the registry alone; otherwise a zeroed state is allocated, its
fields initialised (`next_seq_no = INITIAL_SEQ_NO`, counters zero, empty
lists), and the state is linked at the head of the global state list. -/
def ctcp_init (conn : Option Nat) (cfg : Config)
    (registry : List CtcpState) : Option CtcpState × List CtcpState :=
  match conn with
  | none => (none, registry)
  | some c =>
    let st : CtcpState :=
      { conn := c
        config := cfg
        next_seq_no := INITIAL_SEQ_NO
        last_ack_sent := 0
        last_ack_received := 0
        is_output_thread_running := 0
        outbound_segments_list := []
        inflight_segments_list := []
        received_segments_list := []
        bytes_inflight := 0 }
    (some st, st :: registry)

/-- Actions `ctcp_destroy` could take, in order of occurrence.  The join /
cancel and queue-release actions exist in the vocabulary so that their
absence from the actual trace can be stated. -/
inductive DestroyAction
  | unregister
  | connRemove
  | joinOutputThread
  | cancelOutputThread
  | freeQueues
  | freeState
  | endClient
  deriving DecidableEq, Repr

/-- `ctcp_destroy` (ctcp.c lines 144-156): unlink the state from the global
list, `conn_remove` the transport handle, `free(state)` and `end_client()`.
The source carries a `FIXME: Do any other cleanup here.` — it never joins or
cancels the output thread and never frees the three segment lists. -/
def ctcp_destroy (registry : List CtcpState) (st : CtcpState) :
    List CtcpState × List DestroyAction :=
  (registry.erase st,
   [DestroyAction.unregister, DestroyAction.connRemove,
    DestroyAction.freeState, DestroyAction.endClient])

/-- Sum of the payload lengths of the entries of an inflight list. -/
def inflight_payload_sum (l : List TimestampedSegment) : Nat :=
  (l.map (fun t => t.segment.data.length)).sum

/-- Number of entries of a list whose segment has the FIN flag set. -/
def fin_count (l : List TimestampedSegment) : Nat :=
  (l.filter (fun t => Nat.land (ntoh32 t.segment.flags) FIN != 0)).length

/-- A pure ACK per the spec: no payload, ACK flag set, FIN flag clear. -/
def is_pure_ack (seg : Segment) : Prop :=
  seg.data = [] ∧ Nat.land (ntoh32 seg.flags) ACK ≠ 0 ∧
    Nat.land (ntoh32 seg.flags) FIN = 0

instance (seg : Segment) : Decidable (is_pure_ack seg) := by
  unfold is_pure_ack
  infer_instance

/-- Processing a sequence of segment arrivals through the receive path. -/
def processArrivals (st : CtcpState) (arrivals : List (Segment × Nat)) :
    CtcpState :=
  arrivals.foldl (fun s a => ctcp_receive s a.1 a.2) st

/-- Connection states reachable through the operations of ctcp.c: a state
freshly made by `ctcp_init`, followed by any interleaving of `ctcp_read`
calls (any input script), runs of the sender thread body, segment arrivals
and `ctcp_output` calls. -/
inductive Reachable : CtcpState → Prop
  | init (c : Nat) (cfg : Config) (reg : List CtcpState) (st : CtcpState) :
      (ctcp_init (some c) cfg reg).1 = some st → Reachable st
  | read (ck : Segment → Nat → Nat) (st : CtcpState)
      (chunks : List (List Nat)) (eof : Bool) :
      Reachable st → Reachable (ctcp_read ck st chunks eof).1
  | send_step (st : CtcpState) :
      Reachable st → Reachable (send_outbound_tail_segments st).state
  | receive (st : CtcpState) (seg : Segment) (len : Nat) :
      Reachable st → Reachable (ctcp_receive st seg len)
  | output (st : CtcpState) :
      Reachable st → Reachable (ctcp_output st)

/-- A trivial stand-in for the external checksum utility, used to build
concrete states for evaluation. -/
def ck0 : Segment → Nat → Nat := fun _ _ => 0

/-- A concrete configuration. -/
def cfg_demo : Config :=
  { recv_window := 520, send_window := 100, rt_timeout := 200 }

/-- A concrete timestamped data segment carrying a 3-byte payload. -/
def ts_demo : TimestampedSegment :=
  { time_when_sent := 0
    segment :=
      { seqno := hton32 4
        ackno := hton32 0
        len := hton16 (HDR_SIZE + 3)
        flags := Nat.lor 0 (hton32 ACK)
        window := hton16 520
        cksum := 0
        data := [1, 2, 3] } }

/-- A connection state with an open send window and exactly one outbound
segment: the sender thread is eligible to transmit it. -/
def st_c2 : CtcpState :=
  { conn := 1
    config := cfg_demo
    next_seq_no := 7
    last_ack_sent := 0
    last_ack_received := 0
    is_output_thread_running := 1
    outbound_segments_list := [ts_demo]
    inflight_segments_list := []
    received_segments_list := []
    bytes_inflight := 0 }

/-- A quiescent connection state (no outbound segments, no sender thread). -/
def st_c3 : CtcpState :=
  { conn := 1
    config := cfg_demo
    next_seq_no := 7
    last_ack_sent := 0
    last_ack_received := 0
    is_output_thread_running := 0
    outbound_segments_list := []
    inflight_segments_list := []
    received_segments_list := []
    bytes_inflight := 0 }

/-- The state `ctcp_init` builds for handle 5 and `cfg_demo`. -/
def st_init_demo : CtcpState :=
  { conn := 5
    config := cfg_demo
    next_seq_no := INITIAL_SEQ_NO
    last_ack_sent := 0
    last_ack_received := 0
    is_output_thread_running := 0
    outbound_segments_list := []
    inflight_segments_list := []
    received_segments_list := []
    bytes_inflight := 0 }

/-- A concrete connection state used to instantiate universally quantified
theorems. -/
def st_w4 : CtcpState :=
  { conn := 2
    config := cfg_demo
    next_seq_no := 5
    last_ack_sent := 3
    last_ack_received := 2
    is_output_thread_running := 0
    outbound_segments_list := []
    inflight_segments_list := []
    received_segments_list := []
    bytes_inflight := 0 }

/-- A connection state with a running sender thread and non-empty outbound
and inflight queues, about to be destroyed. -/
def st_c6a : CtcpState :=
  { conn := 1
    config := cfg_demo
    next_seq_no := 7
    last_ack_sent := 0
    last_ack_received := 0
    is_output_thread_running := 1
    outbound_segments_list := [ts_demo]
    inflight_segments_list := [ts_demo]
    received_segments_list := []
    bytes_inflight := 3 }

/-- A second registered connection, which survives the destruction of
`st_c6a`. -/
def st_c6b : CtcpState :=
  { conn := 2
    config := cfg_demo
    next_seq_no := 1
    last_ack_sent := 0
    last_ack_received := 0
    is_output_thread_running := 0
    outbound_segments_list := []
    inflight_segments_list := []
    received_segments_list := []
    bytes_inflight := 0 }

/-- A concrete pure-ACK segment (no payload, ACK flag only). -/
def seg_ack_demo : Segment :=
  { seqno := 0
    ackno := 0
    len := hton16 HDR_SIZE
    flags := hton32 ACK
    window := 0
    cksum := 0
    data := [] }

/-- The 16-bit byte swap is an involution below 2^16. -/
theorem ntoh16_hton16 (x : Nat) (hx : x < 65536) : ntoh16 (hton16 x) = x := by
  unfold ntoh16 hton16
  rw [Nat.mod_eq_of_lt hx,
    Nat.mod_eq_of_lt (show x % 256 * 256 + x / 256 < 65536 by omega)]
  omega

/-- One loop iteration of `ctcp_read` only prepends to the outbound list and
advances `next_seq_no`; the inflight list is untouched. -/
theorem read_loop_body_inflight (ck : Segment → Nat → Nat) (st : CtcpState)
    (chunk : List Nat) :
    (read_loop_body ck st chunk).inflight_segments_list
        = st.inflight_segments_list ∧
      (read_loop_body ck st chunk).bytes_inflight = st.bytes_inflight :=
  ⟨rfl, rfl⟩

/-- The loop of `ctcp_read` never touches the inflight list or
`bytes_inflight`. -/
theorem ctcp_read_loop_inflight (ck : Segment → Nat → Nat)
    (chunks : List (List Nat)) : ∀ (st : CtcpState) (nf : Bool),
    (ctcp_read_loop ck st chunks nf).1.inflight_segments_list
        = st.inflight_segments_list ∧
      (ctcp_read_loop ck st chunks nf).1.bytes_inflight = st.bytes_inflight := by
  induction chunks with
  | nil => intro st nf; exact ⟨rfl, rfl⟩
  | cons chunk rest ih =>
    intro st nf
    cases nf with
    | false =>
      have h := ih (read_loop_body ck st chunk) false
      exact ⟨h.1, h.2⟩
    | true =>
      simp only [ctcp_read_loop]
      by_cases hrun : (read_loop_body ck st chunk).is_output_thread_running = 0
      · rw [if_pos hrun]
        have h := ih
          { read_loop_body ck st chunk with is_output_thread_running := 1 } false
        exact ⟨h.1, h.2⟩
      · rw [if_neg hrun]
        have h := ih (read_loop_body ck st chunk) false
        exact ⟨h.1, h.2⟩

/-- `ctcp_read` never touches the inflight list or `bytes_inflight`. -/
theorem ctcp_read_inflight (ck : Segment → Nat → Nat) (st : CtcpState)
    (chunks : List (List Nat)) (eof : Bool) :
    (ctcp_read ck st chunks eof).1.inflight_segments_list
        = st.inflight_segments_list ∧
      (ctcp_read ck st chunks eof).1.bytes_inflight = st.bytes_inflight := by
  cases eof with
  | false => exact ctcp_read_loop_inflight ck chunks st true
  | true => exact ctcp_read_loop_inflight ck chunks st true

/-- The sender task body never touches the inflight list or
`bytes_inflight`, whatever its outcome. -/
theorem send_state_inflight (st : CtcpState) :
    (send_outbound_tail_segments st).state.inflight_segments_list
        = st.inflight_segments_list ∧
      (send_outbound_tail_segments st).state.bytes_inflight
        = st.bytes_inflight := by
  unfold send_outbound_tail_segments
  split
  · split
    · exact ⟨rfl, rfl⟩
    · split
      · exact ⟨rfl, rfl⟩
      · split
        · exact ⟨rfl, rfl⟩
        · exact ⟨rfl, rfl⟩
  · split
    · exact ⟨rfl, rfl⟩
    · split
      · exact ⟨rfl, rfl⟩
      · exact ⟨rfl, rfl⟩

/-- Prepending an entry whose FIN flag is set bumps `fin_count` by one. -/
theorem fin_count_cons_fin (t : TimestampedSegment)
    (l : List TimestampedSegment)
    (h : Nat.land (ntoh32 t.segment.flags) FIN ≠ 0) :
    fin_count (t :: l) = fin_count l + 1 := by
  unfold fin_count
  rw [List.filter_cons, if_pos (by simpa using h)]
  rfl

/-- Prepending an entry whose FIN flag is clear leaves `fin_count`
unchanged. -/
theorem fin_count_cons_data (t : TimestampedSegment)
    (l : List TimestampedSegment)
    (h : Nat.land (ntoh32 t.segment.flags) FIN = 0) :
    fin_count (t :: l) = fin_count l := by
  unfold fin_count
  rw [List.filter_cons, if_neg (by simpa using h)]

/-- A single `ctcp_read` loop iteration adds no FIN entry: the data segment
it prepends has only the ACK flag. -/
theorem read_loop_body_fin_count (ck : Segment → Nat → Nat) (st : CtcpState)
    (chunk : List Nat) :
    fin_count (read_loop_body ck st chunk).outbound_segments_list
      = fin_count st.outbound_segments_list := by
  have hflag : (create_new_data_segment ck st chunk.length chunk).1.flags
      = 16777216 := rfl
  have h : Nat.land
      (ntoh32 (create_new_data_segment ck st chunk.length chunk).1.flags) FIN
        = 0 := by rw [hflag]; decide
  exact fin_count_cons_data _ _ h

/-- No operation of ctcp.c ever populates the inflight list or changes
`bytes_inflight`: both keep their initial values on every reachable state. -/
theorem reachable_inflight_nil (st : CtcpState) (h : Reachable st) :
    st.inflight_segments_list = [] ∧ st.bytes_inflight = 0 := by
  induction h with
  | init c cfg reg st0 hst =>
    simp only [ctcp_init, Option.some.injEq] at hst
    subst hst
    exact ⟨rfl, rfl⟩
  | read ck st0 chunks eof hr ih =>
    have hp := ctcp_read_inflight ck st0 chunks eof
    exact ⟨hp.1.trans ih.1, hp.2.trans ih.2⟩
  | send_step st0 hr ih =>
    have hp := send_state_inflight st0
    exact ⟨hp.1.trans ih.1, hp.2.trans ih.2⟩
  | receive st0 seg len hr ih => exact ih
  | output st0 hr ih => exact ih

/-- Folding the (stub) receive path over any arrival sequence is the
identity. -/
theorem processArrivals_eq (arrivals : List (Segment × Nat)) :
    ∀ st : CtcpState, processArrivals st arrivals = st := by
  induction arrivals with
  | nil => intro st; rfl
  | cons a rest ih => intro st; exact ih st

/-- The loop of `ctcp_read` only prepends data segments (ACK flag, no FIN),
so it never changes the number of FIN entries in the outbound list. -/
theorem ctcp_read_loop_fin_count (ck : Segment → Nat → Nat)
    (chunks : List (List Nat)) : ∀ (st : CtcpState) (nf : Bool),
    fin_count ((ctcp_read_loop ck st chunks nf).1.outbound_segments_list)
      = fin_count st.outbound_segments_list := by
  induction chunks with
  | nil => intro st nf; rfl
  | cons chunk rest ih =>
    intro st nf
    cases nf with
    | false =>
      exact (ih (read_loop_body ck st chunk) false).trans
        (read_loop_body_fin_count ck st chunk)
    | true =>
      simp only [ctcp_read_loop]
      by_cases hrun : (read_loop_body ck st chunk).is_output_thread_running = 0
      · rw [if_pos hrun]
        exact (ih { read_loop_body ck st chunk with
            is_output_thread_running := 1 } false).trans
          (read_loop_body_fin_count ck st chunk)
      · rw [if_neg hrun]
        exact (ih (read_loop_body ck st chunk) false).trans
          (read_loop_body_fin_count ck st chunk)

/-- Claim C1: for every reachable connection state, `bytes_inflight` equals
the exact sum of the payload lengths of the entries of the inflight list.
In this code the invariant holds degenerately: no operation ever moves a
segment into or out of the inflight list or changes `bytes_inflight` (the
inflight critical section of the sender is empty), so both sides stay at their
initial values, an empty list and zero. -/
theorem claim_C1_bytes_inflight_invariant (st : CtcpState)
    (h : Reachable st) :
    st.bytes_inflight
      = (inflight_payload_sum st.inflight_segments_list : Int) := by
  obtain ⟨h1, h2⟩ := reachable_inflight_nil st h
  rw [h1, h2]
  rfl

theorem claim_C1_witness :
    st_init_demo.bytes_inflight
      = (inflight_payload_sum st_init_demo.inflight_segments_list : Int) :=
  claim_C1_bytes_inflight_invariant st_init_demo
    (Reachable.init 5 cfg_demo [] st_init_demo rfl)

/-- Claim C2 (code-bug evidence): on a state with an open send window
(`bytes_inflight = 0 < send_window = 100`) and exactly one outbound
segment, one run of the sender task removes that segment from the outbound
list but never records a send time, never inserts it into the inflight
list, never increases `bytes_inflight`, and never transmits: it crashes
dereferencing the tail of the now-empty outbound list (ctcp.c line 265)
instead. -/
theorem claim_C2_send_task_code_bug :
    send_outbound_tail_segments st_c2
        = SendOutcome.nullDeref
            { st_c2 with outbound_segments_list := [] } ∧
      (send_outbound_tail_segments st_c2).state.inflight_segments_list
        = [] ∧
      (send_outbound_tail_segments st_c2).state.bytes_inflight = 0 ∧
      st_c2.outbound_segments_list = [ts_demo] ∧
      st_c2.bytes_inflight = 0 ∧
      toI16 st_c2.config.send_window = 100 :=
  ⟨rfl, rfl, rfl, rfl, rfl, rfl⟩

/-- Claim C3 (counterexample): creating a FIN does not consume a sequence
number — after `ctcp_read` enqueues a FIN on end of input, `next_seq_no`
is unchanged at 7 rather than 8 — and a second `ctcp_read` at end of input
enqueues a second FIN, so more than one FIN can be created per
connection. -/
theorem claim_C3_counterexample :
    (ctcp_read ck0 st_c3 [] true).1.next_seq_no ≠ st_c3.next_seq_no + 1 ∧
      2 ≤ fin_count
          ((ctcp_read ck0 (ctcp_read ck0 st_c3 [] true).1 []
              true).1.outbound_segments_list) := by
  constructor
  · decide
  · decide

/-- Claim C3 (amended): creating a FIN segment yields a zero-length
payload, a bare-header `len`, ACK and FIN flags set and `seqno` equal to
the current `next_seq_no` (stored in network byte order), but consumes no
sequence number (`next_seq_no` is left unchanged); `ctcp_read` creates
exactly one FIN per call that encounters end of input and none
otherwise, so repeated end-of-input reads create repeated FINs. -/
theorem claim_C3_fin_segment_amended (ck : Segment → Nat → Nat)
    (st : CtcpState) (chunks : List (List Nat)) :
    (create_new_fin_segment ck st).data = [] ∧
      (create_new_fin_segment ck st).len = hton16 HDR_SIZE ∧
      Nat.land (ntoh32 (create_new_fin_segment ck st).flags) ACK ≠ 0 ∧
      Nat.land (ntoh32 (create_new_fin_segment ck st).flags) FIN ≠ 0 ∧
      (create_new_fin_segment ck st).seqno = hton32 (toU32 st.next_seq_no) ∧
      (ctcp_read ck st [] true).1.next_seq_no = st.next_seq_no ∧
      fin_count ((ctcp_read ck st [] true).1.outbound_segments_list)
        = fin_count st.outbound_segments_list + 1 ∧
      fin_count ((ctcp_read ck st chunks false).1.outbound_segments_list)
        = fin_count st.outbound_segments_list := by
  have hflag : (create_new_fin_segment ck st).flags = 83886080 := rfl
  refine ⟨rfl, rfl, ?_, ?_, rfl, rfl, ?_, ?_⟩
  · rw [hflag]; decide
  · rw [hflag]; decide
  · exact fin_count_cons_fin
      (TimestampedSegment.mk 0 (create_new_fin_segment ck st))
      st.outbound_segments_list (by rw [hflag]; decide)
  · exact ctcp_read_loop_fin_count ck chunks st true

/-- Claim C4: for a non-empty payload of `bytes_read` bytes (that fits the
read buffer and keeps `len` within 16 bits, as every real call does),
`create_new_data_segment` assigns `seqno` from the pre-call `next_seq_no`,
advances `next_seq_no` by exactly `bytes_read`, copies `last_ack_sent` into
`ackno`, sets the ACK flag, advertises the configured `recv_window`, sets
`len` to the header size plus `bytes_read`, copies the payload bytes, and
computes the checksum over the segment with the checksum field zeroed,
covering the header and the payload (`HDR_SIZE + bytes_read` bytes).
Multi-byte fields are stored in network byte order, as the wire format
requires. -/
theorem claim_C4_data_segment_fields (ck : Segment → Nat → Nat)
    (st : CtcpState) (n : Nat) (buffer : List Nat) (seg : Segment)
    (st2 : CtcpState) (h0 : 0 < n) (h1 : n ≤ buffer.length)
    (h2 : HDR_SIZE + n < 65536)
    (heq : create_new_data_segment ck st n buffer = (seg, st2)) :
    seg.seqno = hton32 (toU32 st.next_seq_no) ∧
      st2.next_seq_no = st.next_seq_no + (n : Int) ∧
      seg.ackno = hton32 (toU32 st.last_ack_sent) ∧
      Nat.land (ntoh32 seg.flags) ACK ≠ 0 ∧
      seg.window = hton16 (toU16 st.config.recv_window) ∧
      seg.len = hton16 (HDR_SIZE + n) ∧
      seg.data = buffer.take n ∧
      seg.data.length = n ∧
      seg.cksum = ck { seg with cksum := 0 } (HDR_SIZE + n) := by
  have hseg : seg = (create_new_data_segment ck st n buffer).1 := by rw [heq]
  have hst2 : st2 = (create_new_data_segment ck st n buffer).2 := by rw [heq]
  subst hseg
  subst hst2
  have hflag : (create_new_data_segment ck st n buffer).1.flags
      = 16777216 := rfl
  refine ⟨rfl, rfl, rfl, ?_, rfl, rfl, rfl, ?_, ?_⟩
  · rw [hflag]; decide
  · show (buffer.take n).length = n
    rw [List.length_take]
    omega
  · show ck
        { seqno := hton32 (toU32 st.next_seq_no)
          ackno := hton32 (toU32 st.last_ack_sent)
          len := hton16 (HDR_SIZE + n)
          flags := 16777216
          window := hton16 (toU16 st.config.recv_window)
          cksum := 0
          data := buffer.take n }
        (ntoh16 (hton16 (HDR_SIZE + n)))
      = ck
        { seqno := hton32 (toU32 st.next_seq_no)
          ackno := hton32 (toU32 st.last_ack_sent)
          len := hton16 (HDR_SIZE + n)
          flags := 16777216
          window := hton16 (toU16 st.config.recv_window)
          cksum := 0
          data := buffer.take n }
        (HDR_SIZE + n)
    exact congrArg (ck _) (ntoh16_hton16 _ h2)

theorem claim_C4_witness :
    (create_new_data_segment ck0 st_w4 3 [10, 20, 30]).2.next_seq_no = 8 ∧
      (create_new_data_segment ck0 st_w4 3 [10, 20, 30]).1.data
        = [10, 20, 30] ∧
      (create_new_data_segment ck0 st_w4 3 [10, 20, 30]).1.len
        = hton16 21 := by
  have h := claim_C4_data_segment_fields ck0 st_w4 3 [10, 20, 30]
    (create_new_data_segment ck0 st_w4 3 [10, 20, 30]).1
    (create_new_data_segment ck0 st_w4 3 [10, 20, 30]).2
    (by decide) (by decide) (by decide) rfl
  refine ⟨?_, ?_, ?_⟩
  · rw [h.2.1]; decide
  · rw [h.2.2.2.2.2.2.1]; decide
  · exact h.2.2.2.2.2.1

/-- Claim C5: across any sequence of arrivals handled by the receive path,
`last_ack_received` and `last_ack_sent` never decrease, and a pure ACK
whose `ackno` does not exceed the current `last_ack_received` leaves the
state entirely unchanged.  In this code `ctcp_receive` is an empty stub,
so no arrival changes any state and both properties hold trivially. -/
theorem claim_C5_ack_monotonic (st : CtcpState)
    (arrivals : List (Segment × Nat)) (seg : Segment) (len : Nat) :
    (st.last_ack_received ≤ (processArrivals st arrivals).last_ack_received ∧
        st.last_ack_sent ≤ (processArrivals st arrivals).last_ack_sent) ∧
      (is_pure_ack seg → (ntoh32 seg.ackno : Int) ≤ st.last_ack_received →
        ctcp_receive st seg len = st) := by
  refine ⟨?_, fun _ _ => rfl⟩
  rw [processArrivals_eq arrivals st]
  exact ⟨le_refl _, le_refl _⟩

theorem claim_C5_witness :
    ctcp_receive st_w4 seg_ack_demo 18 = st_w4 ∧
      st_w4.last_ack_received
        ≤ (processArrivals st_w4 [(seg_ack_demo, 18)]).last_ack_received :=
  ⟨(claim_C5_ack_monotonic st_w4 [(seg_ack_demo, 18)] seg_ack_demo 18).2
      (by decide) (by decide),
    (claim_C5_ack_monotonic st_w4 [(seg_ack_demo, 18)] seg_ack_demo 18).1.1⟩

/-- Claim C6 (code-bug evidence): destroying a connection whose sender
thread is running and whose outbound and inflight queues are non-empty
performs only unregister, transport release, state free and client end: the
action trace contains no join or cancellation of the sender thread and no
release of the three queues (the source marks the missing cleanup with a
FIXME). -/
theorem claim_C6_destroy_missing_cleanup :
    (ctcp_destroy [st_c6a, st_c6b] st_c6a).2
        = [DestroyAction.unregister, DestroyAction.connRemove,
           DestroyAction.freeState, DestroyAction.endClient] ∧
      DestroyAction.joinOutputThread
          ∉ (ctcp_destroy [st_c6a, st_c6b] st_c6a).2 ∧
      DestroyAction.cancelOutputThread
          ∉ (ctcp_destroy [st_c6a, st_c6b] st_c6a).2 ∧
      DestroyAction.freeQueues ∉ (ctcp_destroy [st_c6a, st_c6b] st_c6a).2 ∧
      st_c6a.is_output_thread_running = 1 ∧
      st_c6a.inflight_segments_list ≠ [] ∧
      (ctcp_destroy [st_c6a, st_c6b] st_c6a).1 = [st_c6b] := by
  refine ⟨rfl, ?_, ?_, ?_, rfl, ?_, ?_⟩
  · decide
  · decide
  · decide
  · decide
  · decide

/-- Claim C7: for every non-NULL connection handle, `ctcp_init` allocates a
state with `next_seq_no = INITIAL_SEQ_NO`, the two acknowledgment counters
and `bytes_inflight` zero, empty outbound, inflight and received lists, and
links it at the head of the process-wide registry list. -/
theorem claim_C7_init_fields (c : Nat) (cfg : Config)
    (reg : List CtcpState) :
    ∃ st : CtcpState,
      ctcp_init (some c) cfg reg = (some st, st :: reg) ∧
        st.next_seq_no = INITIAL_SEQ_NO ∧
        st.last_ack_sent = 0 ∧
        st.last_ack_received = 0 ∧
        st.bytes_inflight = 0 ∧
        st.outbound_segments_list = [] ∧
        st.inflight_segments_list = [] ∧
        st.received_segments_list = [] ∧
        st.conn = c ∧ st.config = cfg :=
  ⟨_, rfl, rfl, rfl, rfl, rfl, rfl, rfl, rfl, rfl, rfl⟩

/-- Claim C8: for the NULL connection handle, `ctcp_init` returns NULL and
leaves the global list of active connection states unchanged. -/
theorem claim_C8_init_null_handle (cfg : Config) (reg : List CtcpState) :
    ctcp_init none cfg reg = (none, reg) := rfl

/-- Claim C9: every `ctcp_destroy` call, regardless of how many other
connections remain registered, removes only the given state from the
registry yet unconditionally ends the whole client process after freeing
the state: its action trace is always unregister, transport release, state
free, then `end_client`. -/
theorem claim_C9_destroy_always_ends_client (reg : List CtcpState)
    (st : CtcpState) :
    (ctcp_destroy reg st).2
        = [DestroyAction.unregister, DestroyAction.connRemove,
           DestroyAction.freeState, DestroyAction.endClient] ∧
      (ctcp_destroy reg st).1 = reg.erase st :=
  ⟨rfl, rfl⟩

/-- Claim C10: when `ctcp_read` encounters end of input immediately (the
first `conn_input` call returns -1), it adds exactly one timestamped FIN
segment at the front of the outbound list and changes nothing else: it
advances no sequence number, leaves `is_output_thread_running` and every
other field unchanged, forks no sender thread and transmits nothing (the
event list is empty), so the enqueued FIN is not sent by this call. -/
theorem claim_C10_read_eof_frame (ck : Segment → Nat → Nat)
    (st : CtcpState) :
    (ctcp_read ck st [] true).1.outbound_segments_list
        = { time_when_sent := 0, segment := create_new_fin_segment ck st } ::
            st.outbound_segments_list ∧
      (ctcp_read ck st [] true).1.next_seq_no = st.next_seq_no ∧
      (ctcp_read ck st [] true).1.is_output_thread_running
        = st.is_output_thread_running ∧
      (ctcp_read ck st [] true).1.last_ack_sent = st.last_ack_sent ∧
      (ctcp_read ck st [] true).1.last_ack_received
        = st.last_ack_received ∧
      (ctcp_read ck st [] true).1.inflight_segments_list
        = st.inflight_segments_list ∧
      (ctcp_read ck st [] true).1.received_segments_list
        = st.received_segments_list ∧
      (ctcp_read ck st [] true).1.bytes_inflight = st.bytes_inflight ∧
      (ctcp_read ck st [] true).2 = [] ∧
      Nat.land (ntoh32 (create_new_fin_segment ck st).flags) FIN ≠ 0 := by
  have hflag : (create_new_fin_segment ck st).flags = 83886080 := rfl
  refine ⟨rfl, rfl, rfl, rfl, rfl, rfl, rfl, rfl, rfl, ?_⟩
  rw [hflag]; decide
